import Mathlib

set_option maxRecDepth 4000
set_option linter.unusedVariables false

/-! Shallow embedding of the ai-pipeline-guardian failure-classification and
remediation engine.  Sources: app/ai_analyzer.py, app/vertex_ai_fixer.py,
app/ai_predictor.py, app/main.py.  Python dicts are modelled as association
lists in insertion order; wall-clock timestamps as natural-number seconds;
the generative-model oracle as an explicit outcome value. -/

/-- Association-list lookup with Python dict semantics (keys are unique,
first binding wins). -/
def alookup {α β : Type} [DecidableEq α] : List (α × β) → α → Option β
  | [], _ => none
  | p :: rest, k => if p.1 = k then some p.2 else alookup rest k

/-- Association-list write with Python dict assignment semantics:
overwrite in place when the key exists, append at the end otherwise. -/
def aset {α β : Type} [DecidableEq α] : List (α × β) → α → β → List (α × β)
  | [], k, v => [(k, v)]
  | p :: rest, k, v => if p.1 = k then (k, v) :: rest else p :: aset rest k v

/-- The single-quote character (by code point, to keep the source plain). -/
def sqc : Char := '\x27'

/-- The double-quote character. -/
def dqc : Char := '\x22'

/-- Python str.lower over the characters of a string (ASCII case folding,
which covers every token the analyzer matches on). -/
def lowerData (s : String) : List Char := s.data.map Char.toLower

/-- If `hay` starts with `marker`, return the remainder of `hay`. -/
def startsWithL : List Char → List Char → Option (List Char)
  | [], hay => some hay
  | _ :: _, [] => none
  | m :: ms, h :: hs => if h = m then startsWithL ms hs else none

/-- Python substring test `needle in hay`. -/
def containsSub (needle : List Char) : List Char → Bool
  | [] => (startsWithL needle []).isSome
  | h :: rest => (startsWithL needle (h :: rest)).isSome || containsSub needle rest

/-- `strContains hay needle` is Python `needle in hay`. -/
def strContains (hay needle : String) : Bool := containsSub needle.data hay.data

/-- `re.search(marker + "([^c]+)" + c, text)` returning group 1: scan left to
right for an occurrence of the literal `marker` followed by a nonempty run of
characters other than `close` and then `close` itself; the greedy group is that
run.  Used for patterns such as `No module named '([^']+)'`. -/
def findCapture (marker : List Char) (close : Char) : List Char → Option (List Char)
  | [] => none
  | h :: rest =>
    match startsWithL marker (h :: rest) with
    | some after =>
      let t := after.takeWhile (fun c => c != close)
      if t.length ≠ 0 ∧ t.length < after.length then some t
      else findCapture marker close rest
    | none => findCapture marker close rest

/-- Regular-expression fragments covering exactly the constructs appearing in
the language-signature patterns of ai_analyzer.py (literals, `.*`, `\d+`,
`\d{n}`, `\b`). -/
inductive RE where
  | lit (cs : List Char)
  | anyStar
  | digitPlus
  | digitN (n : Nat)
  | wb
  | seq (a b : RE)

/-- Python `\w` on ASCII: letters, digits, underscore. -/
def isWordChar (c : Char) : Bool := c.isAlphanum || c == '_'

/-- Word boundary: the previous character and the next character disagree on
word-membership (start/end of text count as non-word). -/
def wbAt (prev : Option Char) (s : List Char) : Bool :=
  let pw := match prev with | none => false | some c => isWordChar c
  let nw := match s with | [] => false | c :: _ => isWordChar c
  pw != nw

/-- All ways for `.*` to consume a (possibly empty) run of non-newline
characters, returning the last consumed character and the remaining suffix. -/
def anyStarSplits (prev : Option Char) : List Char → List (Option Char × List Char)
  | [] => [(prev, [])]
  | c :: rest =>
    (prev, c :: rest) :: (if c == '\n' then [] else anyStarSplits (some c) rest)

/-- All ways for `\d+` to consume a nonempty run of digits. -/
def digitPlusSplits (_prev : Option Char) : List Char → List (Option Char × List Char)
  | [] => []
  | c :: rest =>
    if c.isDigit then (some c, rest) :: digitPlusSplits (some c) rest else []

/-- Consume exactly `n` digits. -/
def digitNConsume : Nat → Option Char → List Char → Option (Option Char × List Char)
  | 0, prev, s => some (prev, s)
  | _ + 1, _, [] => none
  | n + 1, _, c :: rest => if c.isDigit then digitNConsume n (some c) rest else none

/-- Consume a literal character sequence. -/
def litConsume : List Char → Option Char → List Char → Option (Option Char × List Char)
  | [], prev, s => some (prev, s)
  | _ :: _, _, [] => none
  | m :: ms, _, c :: rest => if c = m then litConsume ms (some c) rest else none

/-- All `(previous character, remaining suffix)` states after matching `r` at
the front of `s` (backtracking enumeration, so only existence matters). -/
def matchR : RE → Option Char → List Char → List (Option Char × List Char)
  | .lit cs, prev, s => match litConsume cs prev s with | some st => [st] | none => []
  | .anyStar, prev, s => anyStarSplits prev s
  | .digitPlus, prev, s => digitPlusSplits prev s
  | .digitN n, prev, s => match digitNConsume n prev s with | some st => [st] | none => []
  | .wb, prev, s => if wbAt prev s then [(prev, s)] else []
  | .seq a b, prev, s => (matchR a prev s).flatMap (fun st => matchR b st.1 st.2)

/-- `re.search`: try to match at each start position. -/
def searchAux (r : RE) : Option Char → List Char → Bool
  | prev, [] => !(matchR r prev []).isEmpty
  | prev, c :: rest => !(matchR r prev (c :: rest)).isEmpty || searchAux r (some c) rest

/-- Whether `r` matches anywhere in `text`. -/
def reSearch (r : RE) (text : List Char) : Bool := searchAux r none text

/-- Shorthand for a literal pattern.  The combined text is lowercased and
`re.search` is called with `re.IGNORECASE`, so each pattern is transcribed in
lowercase, which on ASCII is an equivalent matching problem. -/
def reLit (s : String) : RE := RE.lit s.data

/-- ai_analyzer.py language_patterns["python"]. -/
def pythonPatterns : List RE := [
  RE.seq (reLit ".py") RE.wb,
  reLit "python",
  reLit "pip install",
  reLit "requirements.txt",
  reLit "modulenotfounderror",
  RE.seq (reLit "syntaxerror") (RE.seq RE.anyStar (RE.seq (reLit "line ") RE.digitPlus)),
  reLit "indentationerror",
  reLit "pytest",
  reLit "unittest",
  reLit "django",
  reLit "flask"]

/-- ai_analyzer.py language_patterns["javascript"]. -/
def javascriptPatterns : List RE := [
  RE.seq (reLit ".js") RE.wb,
  reLit "node",
  reLit "npm",
  reLit "package.json",
  reLit "yarn",
  RE.seq (reLit "syntaxerror") (RE.seq RE.anyStar (reLit "unexpected token")),
  reLit "referenceerror",
  RE.seq (reLit "typeerror") (RE.seq RE.anyStar (reLit "undefined")),
  reLit "jest",
  reLit "mocha",
  reLit "webpack",
  reLit "babel"]

/-- ai_analyzer.py language_patterns["java"]. -/
def javaPatterns : List RE := [
  RE.seq (reLit ".java") RE.wb,
  reLit "javac",
  reLit "maven",
  reLit "gradle",
  reLit "pom.xml",
  reLit "exception in thread",
  reLit "classnotfoundexception",
  reLit "nullpointerexception",
  reLit "junit",
  reLit "spring"]

/-- ai_analyzer.py language_patterns["go"]. -/
def goPatterns : List RE := [
  RE.seq (reLit ".go") RE.wb,
  reLit "go build",
  reLit "go test",
  reLit "go.mod",
  reLit "go get",
  reLit "panic:",
  reLit "undefined:",
  reLit "cannot find package"]

/-- ai_analyzer.py language_patterns["ruby"]. -/
def rubyPatterns : List RE := [
  RE.seq (reLit ".rb") RE.wb,
  reLit "ruby",
  reLit "gem install",
  reLit "gemfile",
  reLit "bundle",
  reLit "nomethoderror",
  reLit "nameerror",
  RE.seq (reLit "syntaxerror") (RE.seq RE.anyStar (reLit "unexpected")),
  reLit "rspec",
  reLit "rails"]

/-- ai_analyzer.py language_patterns["php"]. -/
def phpPatterns : List RE := [
  RE.seq (reLit ".php") RE.wb,
  reLit "composer",
  reLit "composer.json",
  reLit "phpunit",
  reLit "fatal error:",
  reLit "parse error:",
  reLit "uncaught error:"]

/-- ai_analyzer.py language_patterns["rust"]. -/
def rustPatterns : List RE := [
  RE.seq (reLit ".rs") RE.wb,
  reLit "cargo",
  reLit "cargo.toml",
  reLit "rustc",
  RE.seq (reLit "error[e") (RE.seq RE.digitPlus (reLit "]")),
  reLit "cannot find",
  reLit "unresolved import"]

/-- ai_analyzer.py language_patterns["csharp"]. -/
def csharpPatterns : List RE := [
  RE.seq (reLit ".cs") RE.wb,
  reLit "dotnet",
  reLit ".csproj",
  reLit "nuget",
  RE.seq (reLit "cs") (RE.seq (RE.digitN 4) (reLit ":")),
  RE.seq (reLit "system.") (RE.seq RE.anyStar (reLit "exception")),
  reLit "nullreferenceexception"]

/-- ai_analyzer.py language_patterns["typescript"]. -/
def typescriptPatterns : List RE := [
  RE.seq (reLit ".ts") RE.wb,
  reLit "tsc",
  reLit "tsconfig.json",
  reLit "typescript",
  RE.seq (reLit "ts") (RE.seq RE.digitPlus (reLit ":")),
  RE.seq (reLit "type") (RE.seq RE.anyStar (reLit "is not assignable"))]

/-- The language table in source (dict-insertion) order. -/
def language_patterns : List (String × List RE) := [
  ("python", pythonPatterns),
  ("javascript", javascriptPatterns),
  ("java", javaPatterns),
  ("go", goPatterns),
  ("ruby", rubyPatterns),
  ("php", phpPatterns),
  ("rust", rustPatterns),
  ("csharp", csharpPatterns),
  ("typescript", typescriptPatterns)]

/-- Number of distinct signatures of a language that match somewhere in the
combined text (each pattern contributes 0 or 1). -/
def scoreLang (pats : List RE) (combined : List Char) : Nat :=
  (pats.filter (fun p => reSearch p combined)).length

/-- The per-language scores, in table order, for `job_name + " " + job_log`
lowercased (ai_analyzer.py detect_language, lines 71-80). -/
def languageScores (job_log job_name : String) : List (String × Nat) :=
  let combined := lowerData (job_name ++ " " ++ job_log)
  language_patterns.map (fun lp => (lp.1, scoreLang lp.2 combined))

/-- Python `max(..., key=...)`: keep the current best, replace only on a
strictly greater score, so the first maximal element wins. -/
def maxBySnd (x : String × Nat) : List (String × Nat) → String × Nat
  | [] => x
  | y :: rest => maxBySnd (if x.2 < y.2 then y else x) rest

/-- The selection step of detect_language (ai_analyzer.py lines 82-84):
`detected = max(scores.items(), key=...)`, returned when its score is
positive, else the "python" default.  (The scores list is never empty; the
nil case is unreachable.) -/
def detectFromScores : List (String × Nat) → String
  | [] => "python"
  | x :: rest =>
    let detected := maxBySnd x rest
    if 0 < detected.2 then detected.1 else "python"

/-- AIAnalyzer.detect_language: the highest-scoring language (first on a tie,
by Python max semantics), falling back to "python" when every score is zero. -/
def detect_language (job_log job_name : String) : String :=
  detectFromScores (languageScores job_log job_name)

/-- A value stored in an analysis's error_details mapping. -/
inductive DetailValue where
  | str (s : String)
  | nat (n : Nat)
deriving DecidableEq

/-- The classifier's output (the dict literals produced by ai_analyzer.py;
confidence values are exactly representable, so ℚ models the Python floats
faithfully here). -/
structure ErrorAnalysis where
  error_category : String
  error_explanation : String
  suggested_solution : String
  recommended_action : String
  confidence : ℚ
  language : String
  error_details : List (String × DetailValue)
deriving DecidableEq

/-- Marker for `No module named '([^']+)'`. -/
def moduleMarker : List Char := "No module named ".data ++ [sqc]

/-- Marker for `Cannot find module '([^']+)'`. -/
def jsModuleMarker : List Char := "Cannot find module ".data ++ [sqc]

/-- The condition of the first fallback branch (ai_analyzer.py line 267). -/
def hasModuleErrToken (job_log : String) : Bool :=
  strContains job_log "ModuleNotFoundError" || strContains job_log "ImportError"

/-- The condition of the second fallback branch (ai_analyzer.py line 279). -/
def hasNpmToken (job_log : String) : Bool :=
  strContains job_log "npm ERR!" || strContains job_log "Cannot find module"

/-- The condition of the third fallback branch (ai_analyzer.py line 291). -/
def hasTimeoutToken (job_log : String) : Bool :=
  strContains (String.mk (lowerData job_log)) "timeout" ||
    strContains (String.mk (lowerData job_log)) "timed out"

/-- Group 1 of a capture regex as a string, with Python's
`match.group(1) if match else "unknown"` default. -/
def captureOr (marker : List Char) (close : Char) (job_log : String) : String :=
  match findCapture marker close job_log.data with
  | some cs => String.mk cs
  | none => "unknown"

/-- AIAnalyzer._get_fallback_analysis (ai_analyzer.py lines 261-310): the
deterministic Tier-3 classifier, checked in source order. -/
def _get_fallback_analysis (job_log : String) : ErrorAnalysis :=
  let language := detect_language job_log ""
  if hasModuleErrToken job_log then
    let module := captureOr moduleMarker sqc job_log
    { error_category := "dependency"
      error_explanation := "Missing Python module: " ++ module
      suggested_solution := "Add " ++ module ++ " to requirements.txt"
      recommended_action := "automatic_fix"
      confidence := 8/10
      language := "python"
      error_details := [("missing_module", DetailValue.str module)] }
  else if hasNpmToken job_log then
    let module := captureOr jsModuleMarker sqc job_log
    { error_category := "dependency"
      error_explanation := "Missing Node.js module: " ++ module
      suggested_solution := "Run npm install " ++ module
      recommended_action := "automatic_fix"
      confidence := 8/10
      language := "javascript"
      error_details := [("missing_module", DetailValue.str module)] }
  else if hasTimeoutToken job_log then
    { error_category := "timeout"
      error_explanation := "Job exceeded time limit"
      suggested_solution := "Increase job timeout in .gitlab-ci.yml"
      recommended_action := "automatic_fix"
      confidence := 7/10
      language := language
      error_details := [("current_timeout", DetailValue.nat 3600)] }
  else
    { error_category := "other"
      error_explanation := "Build failed - manual review required"
      suggested_solution := "Check the full job log for details"
      recommended_action := "manual_fix"
      confidence := 3/10
      language := language
      error_details := [] }

/-- `re.search(r"\x7b.*\x7d", text, re.DOTALL)` succeeds iff some opening brace
is followed (possibly much later, newlines included) by a closing brace. -/
def hasJsonObject (t : String) : Bool :=
  match t.data.dropWhile (fun c => c != '\x7b') with
  | [] => false
  | _ :: rest => rest.contains '\x7d'

/-- Outcome of the generative-model call in analyze_failure: the model is not
configured, generate_content raises, or it returns text. -/
inductive OracleOutcome where
  | noModel
  | raises
  | returns (text : String)

/-- AIAnalyzer.analyze_failure (ai_analyzer.py lines 86-181), with the
JSON-bearing Tier-1 branch abstracted as `tier1` (it covers json.loads,
required-field backfill and language enrichment on a successfully extracted
JSON blob; none of the claims under proof enters that branch). -/
def analyze_failure (tier1 : String → ErrorAnalysis) (oracle : OracleOutcome)
    (job_log job_name : String) : ErrorAnalysis :=
  match oracle with
  | .noModel => _get_fallback_analysis job_log
  | .raises => _get_fallback_analysis job_log
  | .returns t =>
    if hasJsonObject t then tier1 t else _get_fallback_analysis job_log

/-- Marker for `cannot find package "([^"]+)"`. -/
def goPkgMarker : List Char := "cannot find package ".data ++ [dqc]

/-- Marker for `Could not find '([^']+)'`. -/
def gemMarker : List Char := "Could not find ".data ++ [sqc]

/-- AIAnalyzer._enhance_language_specific (ai_analyzer.py lines 183-219). -/
def _enhance_language_specific (result : ErrorAnalysis) (language : String)
    (job_log : String) : ErrorAnalysis :=
  let d := result.error_details
  let d2 :=
    if language = "javascript" ∧ result.error_category = "dependency" then
      if strContains (String.mk (lowerData job_log)) "yarn" then
        aset (aset d "package_manager" (DetailValue.str "yarn"))
          "install_command" (DetailValue.str "yarn add")
      else
        aset (aset d "package_manager" (DetailValue.str "npm"))
          "install_command" (DetailValue.str "npm install")
    else if language = "java" ∧ result.error_category = "dependency" then
      if strContains job_log "pom.xml" || strContains job_log "mvn" then
        aset (aset d "build_tool" (DetailValue.str "maven"))
          "config_file" (DetailValue.str "pom.xml")
      else
        aset (aset d "build_tool" (DetailValue.str "gradle"))
          "config_file" (DetailValue.str "build.gradle")
    else if language = "go" ∧ result.error_category = "dependency" then
      match findCapture goPkgMarker dqc job_log.data with
      | some cs => aset d "go_module" (DetailValue.str (String.mk cs))
      | none => d
    else if language = "ruby" ∧ result.error_category = "dependency" then
      match findCapture gemMarker sqc job_log.data with
      | some cs => aset d "gem_name" (DetailValue.str (String.mk cs))
      | none => d
    else d
  { result with error_details := d2 }

/-- The .gitlab-ci.yml timeout suggestion produced by
VertexAIFixer._fix_timeout_error (vertex_ai_fixer.py lines 266-286); the
argument is `error_details.get('current_timeout', 300)`. -/
structure TimeoutFixSuggestion where
  success : Bool
  fix_type : String
  current_timeout : Nat
  new_timeout : Nat
  confidence : ℚ
deriving DecidableEq

/-- VertexAIFixer._fix_timeout_error.  Python computes
`new_timeout = int(current_timeout * 1.5)`, which truncates the float
`current_timeout * 1.5` (exact for all realistic timeouts), i.e. the floor
`current_timeout * 3 / 2` in natural-number division. -/
def _fix_timeout_error (current_timeout : Nat) : TimeoutFixSuggestion :=
  { success := true
    fix_type := "timeout"
    current_timeout := current_timeout
    new_timeout := current_timeout * 3 / 2
    confidence := 9/10 }

/-- Python built-in `round` on an exactly-representable value: round half to
even. -/
def pyRoundQ (q : ℚ) : ℤ :=
  let f := ⌊q⌋
  let frac := q - f
  if frac < 1/2 then f
  else if 1/2 < frac then f + 1
  else if f % 2 = 0 then f else f + 1

/-- Python `round(x, 3)`. -/
def round3 (q : ℚ) : ℚ := (pyRoundQ (q * 1000) : ℚ) / 1000

/-- The `historical_data["patterns"]` fields read by predict_failure_risk
(ai_predictor.py): failure_rate, failure_by_hour (keyed by hour) and the
top-level total_analyzed. -/
structure HistPatterns where
  failure_rate : ℚ
  failure_by_hour : List (Nat × Nat)
  total_analyzed : Nat

/-- risk_patterns["late_night_deploy"]["hours"]. -/
def lateNightHours : List Nat := [0, 1, 2, 3, 4, 5]

/-- risk_patterns["monday_morning"]["hours"]. -/
def mondayMorningHours : List Nat := [7, 8, 9]

/-- The risk-level loop of AIPredictor.predict_failure_risk (lines 196-200):
thresholds sorted descending, first threshold the score meets wins, default
"low". -/
def riskLevelOf (s : ℚ) : String :=
  if 85/100 ≤ s then "critical"
  else if 7/10 ≤ s then "high"
  else if 1/2 ≤ s then "medium"
  else "low"

/-- AIPredictor.predict_failure_risk (ai_predictor.py lines 101-231), its
numeric core: the six additive risk contributions, the cap at 1.0, the level
bands, and the 3-decimal rounding of the returned score.  `hour`/`weekday`
stand for `datetime.now()`'s fields; `none` for absent historical data.  The
contributions are the products of exactly-representable literals, modelled in
ℚ. -/
def predict_failure_risk (hour weekday recent_commits : Nat)
    (hist : Option HistPatterns) : ℚ × String :=
  let r1 : ℚ := if hour ∈ lateNightHours then 3/10 * (9/5) else 0
  let r2 : ℚ := if weekday = 4 ∧ 15 ≤ hour then 1/4 * (3/2) else 0
  let r3 : ℚ := if weekday = 0 ∧ hour ∈ mondayMorningHours then 1/5 * (7/5) else 0
  let r4 : ℚ := if 10 < recent_commits then 3/10 * (8/5) else 0
  let r5 : ℚ :=
    match hist with
    | some h => if 3/10 < h.failure_rate then h.failure_rate * (1/2) else 0
    | none => 0
  let r6 : ℚ :=
    match hist with
    | some h =>
      match alookup h.failure_by_hour hour with
      | some cnt =>
        let rate : ℚ := (cnt : ℚ) / ((max h.total_analyzed 1 : Nat) : ℚ)
        if 1/5 < rate then rate * (3/10) else 0
      | none => 0
    | none => 0
  let total := r1 + r2 + r3 + r4 + r5 + r6
  let risk_score := min total 1
  (round3 risk_score, riskLevelOf risk_score)

/-- One remembered fix MR: created_mrs[key] entries (main.py lines 916-919). -/
structure MRRecord where
  url : String
  timestamp : Nat
deriving DecidableEq

/-- Per-delivery context for one failed job: module configuration, the wall
clock, and the outcomes of the external Vertex calls
(suggest_fix(...)["success"] and create_fix_mr's url on success). -/
structure JobContext where
  tokenConfigured : Bool
  now : Nat
  suggestSuccess : Bool
  mrResult : Option String
deriving DecidableEq

/-- Lexicographic order on character lists by code point (the order
json.dumps(..., sort_keys=True) sorts dict keys in). -/
def lexLtChars : List Char → List Char → Bool
  | [], [] => false
  | [], _ :: _ => true
  | _ :: _, [] => false
  | a :: as, b :: bs =>
    if a.val < b.val then true else if b.val < a.val then false else lexLtChars as bs

/-- Insert a pair into a key-sorted association list. -/
def insortPair (p : String × DetailValue) :
    List (String × DetailValue) → List (String × DetailValue)
  | [] => [p]
  | q :: rest =>
    if lexLtChars p.1.data q.1.data then p :: q :: rest else q :: insortPair p rest

/-- Canonical (key-sorted) form of an error_details dict, standing for
`json.dumps(error_details, sort_keys=True)` in the MR dedup key. -/
def sortPairs (l : List (String × DetailValue)) : List (String × DetailValue) :=
  l.foldr insortPair []

/-- The dedup key `f"{project_id}:{category}:{json.dumps(details, sort_keys=True)}"`
(main.py line 864), as the triple it injectively encodes. -/
abbrev MRKey := Nat × String × List (String × DetailValue)

/-- The created_mrs defaultdict(list) (main.py line 43). -/
abbrev MRCache := List (MRKey × List MRRecord)

/-- Observable effects of processing a single failed job (main.py lines
836-948): whether create_fix_mr was called, the per-job mr_created flag, the
increment of the aggregate mr_count, the mr_url/mr_exists marks placed on the
analysis, whether retry_job was called, and the updated created_mrs cache. -/
structure JobEffects where
  mrAttempted : Bool
  mrCreatedFlag : Bool
  mrCountInc : Nat
  mrUrl : Option String
  mrExists : Bool
  retryCalled : Bool
  createdMrs : MRCache
deriving DecidableEq

/-- Python truthiness of error_details.get('missing_module') (main.py line
849: `if not module_name`). -/
def truthyDetail : Option DetailValue → Bool
  | some (DetailValue.str s) => s != ""
  | some (DetailValue.nat n) => n != 0
  | none => false

/-- The error_details dict at dedup-key time (main.py lines 842-861):
the analysis's details with 'language' written in, and, for dependency errors
with no truthy missing_module, a language-specific extraction from the log. -/
def computeErrorDetails (analysis : ErrorAnalysis) (job_log : String) :
    List (String × DetailValue) :=
  let d := aset analysis.error_details "language" (DetailValue.str analysis.language)
  if analysis.error_category = "dependency" ∧
      truthyDetail (alookup d "missing_module") = false then
    if analysis.language = "python" ∧ strContains job_log "ModuleNotFoundError" then
      match findCapture moduleMarker sqc job_log.data with
      | some cs => aset d "missing_module" (DetailValue.str (String.mk cs))
      | none => d
    else if analysis.language = "javascript" ∧
        strContains job_log "Cannot find module" then
      match findCapture jsModuleMarker sqc job_log.data with
      | some cs => aset d "missing_module" (DetailValue.str (String.mk cs))
      | none => d
    else d
  else d

/-- Categories eligible for the Vertex enhancement / MR path (main.py line 839). -/
def fixableCategories : List String :=
  ["dependency", "syntax_error", "timeout", "security", "configuration"]

/-- Categories eligible for a retry (main.py line 941). -/
def retryCategories : List String := ["transient", "network", "timeout"]

/-- The MR dedup key of a job (main.py line 864). -/
def mrKeyOf (project_id : Nat) (analysis : ErrorAnalysis) (job_log : String) : MRKey :=
  (project_id, analysis.error_category, sortPairs (computeErrorDetails analysis job_log))

/-- `created_mrs[mr_key].append(record)` on a defaultdict(list). -/
def appendMr (cm : MRCache) (k : MRKey) (r : MRRecord) : MRCache :=
  aset cm k (((alookup cm k).getD []) ++ [r])

/-- The reuse decision (main.py lines 865-877): `some recent` when the last
recorded MR for the key is under an hour old (reuse it), `none` when a new MR
may be created. -/
def dedupDecision (cm : MRCache) (k : MRKey) (now : Nat) : Option MRRecord :=
  match ((alookup cm k).getD []).getLast? with
  | some recent => if now - recent.timestamp < 3600 then some recent else none
  | none => none

/-- The per-failed-job body of gitlab_webhook (main.py lines 836-948), as a
function from the created_mrs cache, the context and the analysis to the
job's observable effects. -/
def processJob (cm : MRCache) (ctx : JobContext) (project_id : Nat)
    (analysis : ErrorAnalysis) (job_log : String) : JobEffects :=
  let retry := (analysis.recommended_action == "retry") &&
    decide (analysis.error_category ∈ retryCategories) && ctx.tokenConfigured
  if analysis.error_category ∈ fixableCategories then
    let key := mrKeyOf project_id analysis job_log
    match dedupDecision cm key ctx.now with
    | some recent =>
      { mrAttempted := false, mrCreatedFlag := false, mrCountInc := 0
        mrUrl := some recent.url, mrExists := true, retryCalled := retry
        createdMrs := cm }
    | none =>
      if (analysis.recommended_action == "automatic_fix") && ctx.suggestSuccess then
        match ctx.mrResult with
        | some url =>
          { mrAttempted := true, mrCreatedFlag := true, mrCountInc := 1
            mrUrl := some url, mrExists := false, retryCalled := retry
            createdMrs := appendMr cm key { url := url, timestamp := ctx.now } }
        | none =>
          { mrAttempted := true, mrCreatedFlag := false, mrCountInc := 0
            mrUrl := none, mrExists := false, retryCalled := retry
            createdMrs := cm }
      else
        { mrAttempted := false, mrCreatedFlag := true, mrCountInc := 0
          mrUrl := none, mrExists := false, retryCalled := retry
          createdMrs := cm }
  else
    { mrAttempted := false, mrCreatedFlag := false, mrCountInc := 0
      mrUrl := none, mrExists := false, retryCalled := retry
      createdMrs := cm }

/-- Result of the pipeline-level dedup check (main.py lines 761-769). -/
structure DedupCheck where
  skipped : Bool
  reason : Option String
  state : List (Nat × Nat)
deriving DecidableEq

/-- The pipeline reprocessing guard: processed_pipelines is a
defaultdict(lambda: datetime.min), so an absent pipeline is always processed
(`now - datetime.min` is centuries); a present entry is skipped while under
10 minutes old, otherwise the pipeline is processed and re-marked with the
current time (the old entry is overwritten, never purged). -/
def checkRecentlyProcessed (processed : List (Nat × Nat)) (pid now : Nat) :
    DedupCheck :=
  match alookup processed pid with
  | some last =>
    if now - last < 600 then
      { skipped := true, reason := some "recently_processed", state := processed }
    else
      { skipped := false, reason := none, state := aset processed pid now }
  | none => { skipped := false, reason := none, state := aset processed pid now }

/-- The canonical category taxonomy (spec §4.3). -/
def categoryEnum : List String :=
  ["transient", "syntax_error", "failed_test", "dependency", "configuration",
   "timeout", "security", "other"]

/-- The recommended-action enumeration (spec §4.3). -/
def recommendedActionEnum : List String := ["retry", "automatic_fix", "manual_fix"]

/-- The detail keys the dependency enrichment writes (and may overwrite). -/
def enrichedKeys : List String :=
  ["package_manager", "install_command", "build_tool", "config_file",
   "go_module", "gem_name"]

/-- No unexpired MR record for this key: the cache either has no entry, or its
latest record is at least an hour old. -/
def noUnexpiredEntry (cm : MRCache) (k : MRKey) (now : Nat) : Prop :=
  ∀ r, ((alookup cm k).getD []).getLast? = some r → 3600 ≤ now - r.timestamp

/-- Specification-side maximum of a list of scores. -/
def listMaxN (l : List Nat) : Nat := l.foldr max 0

/-- Specification-side reading of the tie rule the code actually implements:
the first entry whose score equals the maximum. -/
def firstArgmaxLang (scores : List (String × Nat)) : String :=
  match scores.find? (fun p => p.2 == listMaxN (scores.map Prod.snd)) with
  | some p => p.1
  | none => "python"

/-- Fixture: a dependency analysis that already carries a package_manager. -/
def analysisPnpm : ErrorAnalysis :=
  { error_category := "dependency"
    error_explanation := "e"
    suggested_solution := "s"
    recommended_action := "manual_fix"
    confidence := 1/2
    language := "javascript"
    error_details := [("package_manager", DetailValue.str "pnpm")] }

/-- Fixture: a transient analysis recommending a retry. -/
def analysisRetryTransient : ErrorAnalysis :=
  { error_category := "transient"
    error_explanation := "e"
    suggested_solution := "s"
    recommended_action := "retry"
    confidence := 1/2
    language := "python"
    error_details := [] }

/-- Fixture: a timeout analysis recommending an automatic fix. -/
def analysisAutoTimeout : ErrorAnalysis :=
  { error_category := "timeout"
    error_explanation := "e"
    suggested_solution := "s"
    recommended_action := "automatic_fix"
    confidence := 1/2
    language := "python"
    error_details := [] }

/-- Fixture: a timeout analysis recommending a retry (not an automatic fix). -/
def analysisRetryTimeout : ErrorAnalysis :=
  { error_category := "timeout"
    error_explanation := "e"
    suggested_solution := "s"
    recommended_action := "retry"
    confidence := 1/2
    language := "python"
    error_details := [] }

/-- Fixture: a context with a configured token at time 0 whose MR creation
succeeds. -/
def ctxA : JobContext :=
  { tokenConfigured := true, now := 0, suggestSuccess := true, mrResult := some "mr-1" }

/-- Fixture: a later context (100 seconds, inside the 1-hour window). -/
def ctxB : JobContext :=
  { tokenConfigured := true, now := 100, suggestSuccess := true, mrResult := some "mr-2" }

theorem alookup_aset_self {α β : Type} [DecidableEq α] (l : List (α × β)) (k : α)
    (v : β) : alookup (aset l k v) k = some v := by
  induction l with
  | nil => simp [aset, alookup]
  | cons p rest ih =>
    by_cases h : p.1 = k
    · simp [aset, h, alookup]
    · simp [aset, h, alookup, ih]

theorem alookup_aset_ne {α β : Type} [DecidableEq α] (l : List (α × β))
    (k k' : α) (v : β) (h : k' ≠ k) :
    alookup (aset l k v) k' = alookup l k' := by
  have hk' : ¬ k = k' := fun he => h he.symm
  induction l with
  | nil => simp [aset, alookup, hk']
  | cons p rest ih =>
    by_cases hp : p.1 = k
    · have hp' : ¬ p.1 = k' := by rw [hp]; exact hk'
      simp only [aset, if_pos hp, alookup, if_neg hk', if_neg hp']
    · by_cases hp' : p.1 = k'
      · simp only [aset, if_neg hp, alookup, if_pos hp']
      · simp only [aset, if_neg hp, alookup, if_neg hp', ih]

theorem dedupDecision_eq_none {cm : MRCache} {k : MRKey} {now : Nat}
    (h : noUnexpiredEntry cm k now) : dedupDecision cm k now = none := by
  unfold dedupDecision
  cases hl : ((alookup cm k).getD []).getLast? with
  | none => rfl
  | some r =>
    have := h r hl
    simp only []
    rw [if_neg]
    omega

theorem processJob_retryCalled (cm : MRCache) (ctx : JobContext) (pid : Nat)
    (analysis : ErrorAnalysis) (log : String) :
    (processJob cm ctx pid analysis log).retryCalled =
      ((analysis.recommended_action == "retry") &&
        decide (analysis.error_category ∈ retryCategories) && ctx.tokenConfigured) := by
  unfold processJob
  dsimp only
  repeat' split
  all_goals rfl

theorem maxBySnd_fst_le : ∀ (rest : List (String × Nat)) (x : String × Nat),
    x.2 ≤ (maxBySnd x rest).2 := by
  intro rest
  induction rest with
  | nil => intro x; exact Nat.le_refl _
  | cons y rest ih =>
    intro x
    show x.2 ≤ (maxBySnd (if x.2 < y.2 then y else x) rest).2
    by_cases h : x.2 < y.2
    · rw [if_pos h]; exact Nat.le_trans (Nat.le_of_lt h) (ih y)
    · rw [if_neg h]; exact ih x

theorem maxBySnd_find : ∀ (rest : List (String × Nat)) (x : String × Nat),
    (x :: rest).find? (fun p => p.2 == (maxBySnd x rest).2) =
      some (maxBySnd x rest) := by
  intro rest
  induction rest with
  | nil =>
    intro x
    simp [maxBySnd, List.find?]
  | cons y rest ih =>
    intro x
    show (x :: y :: rest).find?
        (fun p => p.2 == (maxBySnd (if x.2 < y.2 then y else x) rest).2) =
      some (maxBySnd (if x.2 < y.2 then y else x) rest)
    by_cases h : x.2 < y.2
    · rw [if_pos h]
      have hxm : x.2 < (maxBySnd y rest).2 :=
        Nat.lt_of_lt_of_le h (maxBySnd_fst_le rest y)
      have hx : (x.2 == (maxBySnd y rest).2) = false := by
        simp [Nat.ne_of_lt hxm]
      rw [List.find?_cons_of_neg _ (by simp [hx]), ih y]
    · rw [if_neg h]
      have hyx : y.2 ≤ x.2 := Nat.le_of_not_lt h
      have ihx := ih x
      by_cases hx : x.2 = (maxBySnd x rest).2
      · have hmx : maxBySnd x rest = x := by
          have := ihx
          rw [List.find?_cons_of_pos _ (by simp [hx])] at this
          exact (Option.some.inj this).symm
        rw [List.find?_cons_of_pos _ (by simp [hx]), hmx]
      · have hxlt : x.2 < (maxBySnd x rest).2 :=
          Nat.lt_of_le_of_ne (maxBySnd_fst_le rest x) hx
        have hylt : y.2 < (maxBySnd x rest).2 := Nat.lt_of_le_of_lt hyx hxlt
        have hrest : rest.find? (fun p => p.2 == (maxBySnd x rest).2) =
            some (maxBySnd x rest) := by
          have := ihx
          rw [List.find?_cons_of_neg _ (by simp [Nat.ne_of_lt hxlt])] at this
          exact this
        rw [List.find?_cons_of_neg _ (by simp [Nat.ne_of_lt hxlt]),
          List.find?_cons_of_neg _ (by simp [Nat.ne_of_lt hylt]), hrest]

theorem maxBySnd_eq_listMax : ∀ (rest : List (String × Nat)) (x : String × Nat),
    (maxBySnd x rest).2 = listMaxN ((x :: rest).map Prod.snd) := by
  intro rest
  induction rest with
  | nil =>
    intro x
    simp [maxBySnd, listMaxN]
  | cons y rest ih =>
    intro x
    show (maxBySnd (if x.2 < y.2 then y else x) rest).2 = _
    rw [ih (if x.2 < y.2 then y else x)]
    simp only [listMaxN, List.map, List.foldr]
    by_cases h : x.2 < y.2
    · rw [if_pos h]
      omega
    · rw [if_neg h]
      omega

theorem languageScores_cons (job_log job_name : String) :
    ∃ s rest, languageScores job_log job_name = ("python", s) :: rest := by
  refine ⟨scoreLang pythonPatterns (lowerData (job_name ++ " " ++ job_log)), ?_, ?_⟩
  · exact (language_patterns.drop 1).map
      (fun lp => (lp.1, scoreLang lp.2 (lowerData (job_name ++ " " ++ job_log))))
  · rfl

theorem pick_eq_firstArgmax (x : String × Nat) (rest : List (String × Nat))
    (hx : x.1 = "python") :
    detectFromScores (x :: rest) = firstArgmaxLang (x :: rest) := by
  show (if 0 < (maxBySnd x rest).2 then (maxBySnd x rest).1 else "python") =
    firstArgmaxLang (x :: rest)
  have hfind := maxBySnd_find rest x
  have hmax := maxBySnd_eq_listMax rest x
  unfold firstArgmaxLang
  rw [← hmax, hfind]
  by_cases h : 0 < (maxBySnd x rest).2
  · rw [if_pos h]
  · rw [if_neg h]
    have hm2 : (maxBySnd x rest).2 = 0 := by omega
    have hx2 : x.2 = 0 := by
      have := maxBySnd_fst_le rest x
      omega
    have hsame : (x :: rest).find? (fun p => p.2 == (maxBySnd x rest).2) = some x := by
      rw [List.find?_cons_of_pos _ (by simp [hx2, hm2])]
    rw [hfind] at hsame
    have hmx : maxBySnd x rest = x := Option.some.inj hsame
    rw [hmx]
    exact hx.symm

set_option maxHeartbeats 2000000 in
/-- C8 counterexample: on the log "npm javac" the javascript and java scores
tie for the (nonzero) maximum, yet detect_language returns "javascript" (the
first language of the tied pair in table order), not the claimed default
"python". -/
theorem detect_language_tie_counterexample :
    languageScores "npm javac" "" =
      [("python", 0), ("javascript", 1), ("java", 1), ("go", 0), ("ruby", 0),
       ("php", 0), ("rust", 0), ("csharp", 0), ("typescript", 0)] ∧
    detect_language "npm javac" "" = "javascript" ∧
    ("javascript" : String) ≠ "python" := by
  refine ⟨by decide, by decide, by decide⟩

set_option maxHeartbeats 2000000 in
/-- C8 amended: detect_language returns the first language in the fixed table
order whose distinct-signature count equals the maximum score.  A strictly
highest score therefore wins, and all-zero scores yield "python" (the first
table entry), so detect_language("", "") = "python" with no exception; but a
nonzero tie resolves to the earliest tied language in table order, not
necessarily to "python". -/
theorem detect_language_first_max (job_log job_name : String) :
    detect_language job_log job_name =
      firstArgmaxLang (languageScores job_log job_name) ∧
    detect_language "" "" = "python" := by
  constructor
  · obtain ⟨s, rest, hs⟩ := languageScores_cons job_log job_name
    unfold detect_language
    rw [hs]
    exact pick_eq_firstArgmax ("python", s) rest rfl
  · decide

theorem fallback_fields (job_log : String) :
    (_get_fallback_analysis job_log).error_category ∈ categoryEnum ∧
    (_get_fallback_analysis job_log).recommended_action ∈ recommendedActionEnum ∧
    0 ≤ (_get_fallback_analysis job_log).confidence ∧
    (_get_fallback_analysis job_log).confidence ≤ 1 ∧
    ((_get_fallback_analysis job_log).error_details.map Prod.fst).Nodup := by
  unfold _get_fallback_analysis
  dsimp only
  repeat' split
  all_goals refine ⟨?_, ?_, ?_, ?_, ?_⟩
  all_goals first
    | decide
    | (dsimp only; decide)
    | norm_num

/-- C1: whenever the oracle is unconfigured, raises, or returns text with no
JSON object, analyze_failure totally computes an ErrorAnalysis (so every
required field of the record is populated by construction), with
error_category in the fixed taxonomy, recommended_action in the fixed action
enumeration, confidence in [0,1], and error_details a well-formed
(possibly empty) mapping with distinct keys. -/
theorem analyze_failure_degraded (tier1 : String → ErrorAnalysis)
    (oracle : OracleOutcome) (job_log job_name : String)
    (h : oracle = OracleOutcome.noModel ∨ oracle = OracleOutcome.raises ∨
      ∃ t, oracle = OracleOutcome.returns t ∧ hasJsonObject t = false) :
    (analyze_failure tier1 oracle job_log job_name).error_category ∈ categoryEnum ∧
    (analyze_failure tier1 oracle job_log job_name).recommended_action ∈
      recommendedActionEnum ∧
    0 ≤ (analyze_failure tier1 oracle job_log job_name).confidence ∧
    (analyze_failure tier1 oracle job_log job_name).confidence ≤ 1 ∧
    ((analyze_failure tier1 oracle job_log job_name).error_details.map
      Prod.fst).Nodup := by
  rcases h with h | h | ⟨t, ht, hjson⟩
  · subst h; exact fallback_fields job_log
  · subst h; exact fallback_fields job_log
  · subst ht
    have he : analyze_failure tier1 (OracleOutcome.returns t) job_log job_name =
        _get_fallback_analysis job_log := by
      unfold analyze_failure
      dsimp only
      rw [hjson]
      simp
    rw [he]
    exact fallback_fields job_log

/-- C1 witness: the unconfigured-oracle case on the empty log. -/
theorem analyze_failure_degraded_witness :
    (analyze_failure (fun _ => _get_fallback_analysis "") OracleOutcome.noModel
      "" "").error_category ∈ categoryEnum ∧
    (analyze_failure (fun _ => _get_fallback_analysis "") OracleOutcome.noModel
      "" "").recommended_action ∈ recommendedActionEnum ∧
    0 ≤ (analyze_failure (fun _ => _get_fallback_analysis "") OracleOutcome.noModel
      "" "").confidence ∧
    (analyze_failure (fun _ => _get_fallback_analysis "") OracleOutcome.noModel
      "" "").confidence ≤ 1 ∧
    ((analyze_failure (fun _ => _get_fallback_analysis "") OracleOutcome.noModel
      "" "").error_details.map Prod.fst).Nodup :=
  analyze_failure_degraded (fun _ => _get_fallback_analysis "")
    OracleOutcome.noModel "" "" (Or.inl rfl)

/-- C3 counterexample: the log "timeout ModuleNotFoundError" contains both a
timeout token and a module-not-found token, yet the Tier-3 fallback classifies
it as "dependency", not the "timeout" the claimed precedence order implies:
the code checks module/import tokens first, not timeout tokens. -/
theorem fallback_precedence_counterexample :
    hasTimeoutToken "timeout ModuleNotFoundError" = true ∧
    hasModuleErrToken "timeout ModuleNotFoundError" = true ∧
    (_get_fallback_analysis "timeout ModuleNotFoundError").error_category =
      "dependency" ∧
    ("dependency" : String) ≠ "timeout" := by
  refine ⟨by decide, by decide, by decide, by decide⟩

/-- C3 amended: the Tier-3 fallback evaluates, in source order,
(1) ModuleNotFoundError/ImportError tokens → dependency, (2) npm ERR! /
Cannot find module tokens → dependency, (3) timeout/timed out tokens →
timeout, and (4) otherwise other with action manual_fix and confidence 0.3 —
first match wins.  Consequently a log containing both a timeout token and a
module-not-found token classifies as dependency, while a log containing a
timeout token and a test-failure token (and no module tokens) classifies
as timeout. -/
theorem fallback_precedence_amended (job_log : String) :
    (hasModuleErrToken job_log = true →
      (_get_fallback_analysis job_log).error_category = "dependency") ∧
    (hasModuleErrToken job_log = false → hasNpmToken job_log = true →
      (_get_fallback_analysis job_log).error_category = "dependency") ∧
    (hasModuleErrToken job_log = false → hasNpmToken job_log = false →
      hasTimeoutToken job_log = true →
      (_get_fallback_analysis job_log).error_category = "timeout") ∧
    (hasModuleErrToken job_log = false → hasNpmToken job_log = false →
      hasTimeoutToken job_log = false →
      (_get_fallback_analysis job_log).error_category = "other" ∧
      (_get_fallback_analysis job_log).recommended_action = "manual_fix" ∧
      (_get_fallback_analysis job_log).confidence = 3/10) := by
  refine ⟨?_, ?_, ?_, ?_⟩
  · intro h1
    simp [_get_fallback_analysis, h1]
  · intro h1 h2
    simp [_get_fallback_analysis, h1, h2]
  · intro h1 h2 h3
    simp [_get_fallback_analysis, h1, h2, h3]
  · intro h1 h2 h3
    simp [_get_fallback_analysis, h1, h2, h3]

/-- C3 amended witness: a log with a timeout token and a test-failure token
(and no module tokens) classifies as timeout. -/
theorem fallback_precedence_amended_witness :
    (_get_fallback_analysis "timeout and test failed").error_category =
      "timeout" :=
  (fallback_precedence_amended "timeout and test failed").2.2.1
    (by decide) (by decide) (by decide)

/-- C9 counterexample: a dependency analysis that already carries
package_manager = "pnpm" has that value overwritten to "npm" by the
javascript enrichment branch, so the step is not purely additive on
already-set fields. -/
theorem enhance_overwrites_counterexample :
    alookup analysisPnpm.error_details "package_manager" =
      some (DetailValue.str "pnpm") ∧
    alookup (_enhance_language_specific analysisPnpm "javascript" "").error_details
      "package_manager" = some (DetailValue.str "npm") := by
  refine ⟨by decide, by decide⟩

/-- C9 amended: the dependency enrichment writes only its own keys
(package_manager, install_command for javascript; build_tool, config_file for
java; go_module for go; gem_name for ruby) and may overwrite those; every
other key of error_details keeps its original value (and no key is ever
removed). -/
theorem enhance_frame (result : ErrorAnalysis) (language job_log : String)
    (k : String) (hk : k ∉ enrichedKeys) :
    alookup (_enhance_language_specific result language job_log).error_details k =
      alookup result.error_details k := by
  have h1 : k ≠ "package_manager" := by intro h; subst h; simp [enrichedKeys] at hk
  have h2 : k ≠ "install_command" := by intro h; subst h; simp [enrichedKeys] at hk
  have h3 : k ≠ "build_tool" := by intro h; subst h; simp [enrichedKeys] at hk
  have h4 : k ≠ "config_file" := by intro h; subst h; simp [enrichedKeys] at hk
  have h5 : k ≠ "go_module" := by intro h; subst h; simp [enrichedKeys] at hk
  have h6 : k ≠ "gem_name" := by intro h; subst h; simp [enrichedKeys] at hk
  unfold _enhance_language_specific
  dsimp only
  repeat' split
  all_goals simp [alookup_aset_ne, h1, h2, h3, h4, h5, h6]

/-- C9 amended witness: a key outside the enrichment's own keys is untouched. -/
theorem enhance_frame_witness :
    alookup (_enhance_language_specific analysisPnpm "javascript" "").error_details
      "missing_module" = alookup analysisPnpm.error_details "missing_module" :=
  enhance_frame analysisPnpm "javascript" "" "missing_module" (by decide)

/-- C6 counterexample: at current_timeout = 301 the code proposes
int(301 * 1.5) = 451, while round(301 * 1.5) = round(451.5) = 452, so the
claimed new_timeout = round(current_timeout * 1.5) fails (the 300 → 450 case
still holds, as 450 is exact). -/
theorem timeout_round_counterexample :
    (_fix_timeout_error 301).new_timeout = 451 ∧
    pyRoundQ ((301 : ℚ) * (3/2)) = 452 ∧
    ((_fix_timeout_error 301).new_timeout : ℤ) ≠ pyRoundQ ((301 : ℚ) * (3/2)) := by
  have h : pyRoundQ ((301 : ℚ) * (3/2)) = 452 := by
    unfold pyRoundQ
    norm_num
  refine ⟨rfl, h, ?_⟩
  rw [h]
  decide

/-- C6 amended: the timeout remediation proposes
new_timeout = int(current_timeout * 1.5), i.e. the floor
current_timeout * 3 / 2 (truncation, not Python round()); it agrees with
round() for every even current_timeout, and in particular gives exactly 450
for 300.  (For odd inputs the two can differ, as the 301 counterexample
shows: truncation gives 451 where round(451.5) = 452.) -/
theorem timeout_floor_amended (current_timeout : Nat) :
    (_fix_timeout_error current_timeout).new_timeout = current_timeout * 3 / 2 ∧
    (current_timeout % 2 = 0 →
      ((_fix_timeout_error current_timeout).new_timeout : ℤ) =
        pyRoundQ ((current_timeout : ℚ) * (3/2))) ∧
    (_fix_timeout_error 300).new_timeout = 450 := by
  refine ⟨rfl, ?_, rfl⟩
  intro he
  obtain ⟨m, hm⟩ : ∃ m, current_timeout = 2 * m :=
    ⟨current_timeout / 2, by omega⟩
  subst hm
  have hq : ((2 * m : ℕ) : ℚ) * (3/2) = ((3 * m : ℕ) : ℚ) := by
    push_cast
    ring
  have hnew : (_fix_timeout_error (2 * m)).new_timeout = 3 * m := by
    show 2 * m * 3 / 2 = 3 * m
    omega
  rw [hnew, hq]
  unfold pyRoundQ
  rw [Int.floor_natCast]
  norm_num

/-- C6 amended witness: the even case at current_timeout = 4. -/
theorem timeout_floor_amended_witness :
    ((_fix_timeout_error 4).new_timeout : ℤ) = pyRoundQ ((4 : ℚ) * (3/2)) :=
  (timeout_floor_amended 4).2.1 (by decide)

/-- C7 counterexample: at Friday 16:00 with no other contributing risk
factors the single active contribution is 0.25 * 1.5 = 0.375, which meets
only the low threshold 0.3 (not the 0.5 medium band), so the code reports
risk_level "low", refuting the claimed "medium". -/
theorem friday_risk_counterexample :
    (predict_failure_risk 16 4 0 none).2 = "low" ∧
    (predict_failure_risk 16 4 0 none).2 ≠ "medium" := by
  have h : (predict_failure_risk 16 4 0 none).2 = "low" := by
    unfold predict_failure_risk riskLevelOf
    norm_num [lateNightHours, mondayMorningHours, min_def]
  refine ⟨h, ?_⟩
  rw [h]
  decide

/-- C7 amended: at Friday 16:00 with no other contributing risk factors the
assessment yields risk_score = round(0.25 * 1.5, 3) = 0.375 = 3/8 and
risk_level = "low" (0.375 meets only the 0.3 threshold). -/
theorem friday_risk_amended :
    (predict_failure_risk 16 4 0 none).1 = 3/8 ∧
    (predict_failure_risk 16 4 0 none).2 = "low" := by
  constructor
  · unfold predict_failure_risk round3 pyRoundQ
    norm_num [lateNightHours, mondayMorningHours, min_def]
  · unfold predict_failure_risk riskLevelOf
    norm_num [lateNightHours, mondayMorningHours, min_def]

/-- C2: with a GitLab token configured, retry_job is called for a failed job
iff the analysis recommends "retry" AND its category is in
{transient, network, timeout}; and for category syntax_error no retry is ever
issued (token or not), preventing retry loops on deterministic failures. -/
theorem retry_iff_transient (cm : MRCache) (ctx : JobContext) (pid : Nat)
    (analysis : ErrorAnalysis) (job_log : String) :
    (ctx.tokenConfigured = true →
      ((processJob cm ctx pid analysis job_log).retryCalled = true ↔
        (analysis.recommended_action = "retry" ∧
          analysis.error_category ∈ retryCategories))) ∧
    (analysis.error_category = "syntax_error" →
      (processJob cm ctx pid analysis job_log).retryCalled = false) := by
  constructor
  · intro htok
    rw [processJob_retryCalled, htok]
    simp [Bool.and_eq_true, beq_iff_eq, decide_eq_true_eq]
  · intro hcat
    rw [processJob_retryCalled, hcat]
    simp [retryCategories]

/-- C2 witness: a transient retry recommendation with a configured token is
retried; the theorem also covers the syntax_error conjunct vacuously. -/
theorem retry_iff_transient_witness :
    (processJob [] ctxA 1 analysisRetryTransient "").retryCalled = true :=
  ((retry_iff_transient [] ctxA 1 analysisRetryTransient "").1 rfl).2
    ⟨rfl, by decide⟩

/-- C10: for a job whose category is in the fixable set and whose dedup key
has no unexpired cache entry, the per-job record's mr_created flag is already
true even when recommended_action is not "automatic_fix", in which case no
create_fix_mr call is made and the aggregate counter does not move; and, in
all cases, the aggregate mrs_created counter increments only on a successful
create_fix_mr call. -/
theorem mr_created_flag_semantics (cm : MRCache) (ctx : JobContext) (pid : Nat)
    (analysis : ErrorAnalysis) (job_log : String) :
    (analysis.error_category ∈ fixableCategories →
      noUnexpiredEntry cm (mrKeyOf pid analysis job_log) ctx.now →
      analysis.recommended_action ≠ "automatic_fix" →
      (processJob cm ctx pid analysis job_log).mrCreatedFlag = true ∧
      (processJob cm ctx pid analysis job_log).mrAttempted = false ∧
      (processJob cm ctx pid analysis job_log).mrCountInc = 0) ∧
    ((processJob cm ctx pid analysis job_log).mrCountInc ≠ 0 →
      (processJob cm ctx pid analysis job_log).mrAttempted = true ∧
      (processJob cm ctx pid analysis job_log).mrCountInc = 1 ∧
      ctx.mrResult.isSome = true) := by
  constructor
  · intro hcat hne hact
    have hd := dedupDecision_eq_none hne
    have hb : (analysis.recommended_action == "automatic_fix") = false := by
      simp [hact]
    unfold processJob
    dsimp only
    rw [if_pos hcat, hd]
    dsimp only
    rw [hb]
    simp
  · intro hc
    revert hc
    unfold processJob
    dsimp only
    split
    · split
      · intro hc; simp at hc
      · split
        · split
          · intro hc
            rename_i url heq
            exact ⟨rfl, rfl, by rw [heq]; rfl⟩
          · intro hc; simp at hc
        · intro hc; simp at hc
    · intro hc; simp at hc

/-- C10 witness: a fixable timeout category with a retry recommendation and an
empty cache keeps mr_created = true with no MR attempt and no counter
movement. -/
theorem mr_created_flag_semantics_witness :
    (processJob [] ctxA 1 analysisRetryTimeout "").mrCreatedFlag = true ∧
    (processJob [] ctxA 1 analysisRetryTimeout "").mrAttempted = false ∧
    (processJob [] ctxA 1 analysisRetryTimeout "").mrCountInc = 0 :=
  (mr_created_flag_semantics [] ctxA 1 analysisRetryTimeout "").1
    (by decide)
    (fun r hr => by simp [alookup] at hr)
    (by decide)

/-- C4: after a first attempt for a dedup key with no cache entry succeeds in
creating a fix MR (recorded with its url and creation time), a second attempt
for the identical key strictly within 1 hour performs no create_fix_mr call
and instead marks the analysis with the existing MR url (mr_exists) leaving
the cache unchanged; at or after the 1-hour mark the stale entry is ignored
and create_fix_mr is attempted again. -/
theorem mr_dedup_window (cm : MRCache) (ctx1 ctx2 : JobContext) (pid : Nat)
    (analysis : ErrorAnalysis) (job_log : String) (u : String)
    (hcat : analysis.error_category ∈ fixableCategories)
    (hact : analysis.recommended_action = "automatic_fix")
    (hfresh : alookup cm (mrKeyOf pid analysis job_log) = none)
    (hsug : ctx1.suggestSuccess = true)
    (hres : ctx1.mrResult = some u) :
    (processJob cm ctx1 pid analysis job_log).mrAttempted = true ∧
    (processJob cm ctx1 pid analysis job_log).mrCountInc = 1 ∧
    alookup (processJob cm ctx1 pid analysis job_log).createdMrs
      (mrKeyOf pid analysis job_log) =
      some [{ url := u, timestamp := ctx1.now }] ∧
    (ctx2.now - ctx1.now < 3600 →
      (processJob (processJob cm ctx1 pid analysis job_log).createdMrs ctx2 pid
        analysis job_log).mrAttempted = false ∧
      (processJob (processJob cm ctx1 pid analysis job_log).createdMrs ctx2 pid
        analysis job_log).mrCountInc = 0 ∧
      (processJob (processJob cm ctx1 pid analysis job_log).createdMrs ctx2 pid
        analysis job_log).mrUrl = some u ∧
      (processJob (processJob cm ctx1 pid analysis job_log).createdMrs ctx2 pid
        analysis job_log).mrExists = true ∧
      (processJob (processJob cm ctx1 pid analysis job_log).createdMrs ctx2 pid
        analysis job_log).createdMrs =
        (processJob cm ctx1 pid analysis job_log).createdMrs) ∧
    (3600 ≤ ctx2.now - ctx1.now → ctx2.suggestSuccess = true →
      (processJob (processJob cm ctx1 pid analysis job_log).createdMrs ctx2 pid
        analysis job_log).mrAttempted = true) := by
  have hd1 : dedupDecision cm (mrKeyOf pid analysis job_log) ctx1.now = none := by
    unfold dedupDecision
    rw [hfresh]
    rfl
  have hb : (analysis.recommended_action == "automatic_fix") = true := by
    simp [hact]
  have he1 : processJob cm ctx1 pid analysis job_log =
      { mrAttempted := true, mrCreatedFlag := true, mrCountInc := 1
        mrUrl := some u, mrExists := false
        retryCalled := (analysis.recommended_action == "retry") &&
          decide (analysis.error_category ∈ retryCategories) && ctx1.tokenConfigured
        createdMrs := appendMr cm (mrKeyOf pid analysis job_log)
          { url := u, timestamp := ctx1.now } } := by
    unfold processJob
    dsimp only
    rw [if_pos hcat, hd1]
    dsimp only
    rw [hb, hsug, hres]
    rfl
  have hlook : alookup (appendMr cm (mrKeyOf pid analysis job_log)
      { url := u, timestamp := ctx1.now }) (mrKeyOf pid analysis job_log) =
      some [{ url := u, timestamp := ctx1.now }] := by
    unfold appendMr
    rw [hfresh]
    simpa using alookup_aset_self cm (mrKeyOf pid analysis job_log)
      [{ url := u, timestamp := ctx1.now }]
  have hd2 : dedupDecision (appendMr cm (mrKeyOf pid analysis job_log)
      { url := u, timestamp := ctx1.now }) (mrKeyOf pid analysis job_log)
      ctx2.now =
      (if ctx2.now - ctx1.now < 3600 then
        some { url := u, timestamp := ctx1.now } else none) := by
    unfold dedupDecision
    rw [hlook]
    rfl
  refine ⟨by rw [he1], by rw [he1], by rw [he1]; exact hlook, ?_, ?_⟩
  · intro hwin
    refine ⟨?_, ?_, ?_, ?_, ?_⟩ <;>
      (rw [he1]
       unfold processJob
       dsimp only
       rw [if_pos hcat, hd2, if_pos hwin])
  · intro hlate hsug2
    rw [he1]
    unfold processJob
    dsimp only
    rw [if_pos hcat, hd2, if_neg (by omega)]
    dsimp only
    rw [hb, hsug2]
    cases ctx2.mrResult <;> rfl

/-- C4 witness: a concrete timeout/automatic_fix analysis, a fresh cache, a
successful first MR creation at time 0 and a second delivery 100 seconds
later, which reuses the recorded MR without a new create_fix_mr call. -/
theorem mr_dedup_window_witness :
    (processJob (processJob [] ctxA 1 analysisAutoTimeout "").createdMrs ctxB 1
      analysisAutoTimeout "").mrAttempted = false ∧
    (processJob (processJob [] ctxA 1 analysisAutoTimeout "").createdMrs ctxB 1
      analysisAutoTimeout "").mrUrl = some "mr-1" :=
  ⟨((mr_dedup_window [] ctxA ctxB 1 analysisAutoTimeout "" "mr-1" (by decide)
      rfl rfl rfl rfl).2.2.2.1 (by decide)).1,
   ((mr_dedup_window [] ctxA ctxB 1 analysisAutoTimeout "" "mr-1" (by decide)
      rfl rfl rfl rfl).2.2.2.1 (by decide)).2.2.1⟩

/-- C5: once a pipeline is marked processed at time t, a failed-pipeline
delivery strictly within 600 seconds of t is skipped with the
"recently_processed" reason and the state untouched (the stale entry is
ignored at lookup time, never purged); a delivery at or after the 600-second
mark is processed again and the entry re-marked with the new time. -/
theorem pipeline_dedup_window (st : List (Nat × Nat)) (pid t now : Nat)
    (hmark : alookup st pid = some t) :
    (now - t < 600 →
      (checkRecentlyProcessed st pid now).skipped = true ∧
      (checkRecentlyProcessed st pid now).reason = some "recently_processed" ∧
      (checkRecentlyProcessed st pid now).state = st) ∧
    (600 ≤ now - t →
      (checkRecentlyProcessed st pid now).skipped = false ∧
      (checkRecentlyProcessed st pid now).state = aset st pid now ∧
      alookup (checkRecentlyProcessed st pid now).state pid = some now) := by
  constructor
  · intro hwin
    unfold checkRecentlyProcessed
    rw [hmark]
    dsimp only
    rw [if_pos hwin]
    exact ⟨rfl, rfl, rfl⟩
  · intro hlate
    unfold checkRecentlyProcessed
    rw [hmark]
    dsimp only
    rw [if_neg (by omega)]
    exact ⟨rfl, rfl, alookup_aset_self st pid now⟩

/-- C5 witness: pipeline 7 marked at t = 50, redelivered at now = 100 (inside
the window): skipped as recently processed with the state untouched. -/
theorem pipeline_dedup_window_witness :
    (checkRecentlyProcessed [(7, 50)] 7 100).skipped = true ∧
    (checkRecentlyProcessed [(7, 50)] 7 100).reason = some "recently_processed" :=
  ⟨((pipeline_dedup_window [(7, 50)] 7 50 100 rfl).1 (by decide)).1,
   ((pipeline_dedup_window [(7, 50)] 7 50 100 rfl).1 (by decide)).2.1⟩
